import Mathlib

/-!
Shallow embedding of `src/coronaviz/backend/data/uk/covid.py`
(class `GovUKCoronavirusData`): the paginated dataset fetcher of the
coronaviz repository, together with the default query structure and the
`get_latest_data` wrapper.

The HTTP layer is modelled by a `server : Nat → HttpResponse` mapping the
`page` query parameter of a request to the response the endpoint returns
for it (within one call of `get_paginated_dataset` all requests differ
only in their `page` parameter, so this captures every response sequence
the loop can observe).  Response bodies are modelled as the decoded text
together with the result of attempting to parse them as JSON
(`Option Json`, `none` meaning `response.json()` raises).  The unbounded
`while True` loop is embedded with explicit fuel; running out of fuel is
reported as a distinct outcome that corresponds to no Python behaviour
other than non-termination of the loop.
-/

/-- JSON values, as produced by `response.json()` and consumed by
`json.dumps`.  Objects keep their fields as an ordered association list,
mirroring insertion-ordered Python dicts. -/
inductive Json where
  | null : Json
  | bool (b : Bool) : Json
  | num (n : Int) : Json
  | str (s : String) : Json
  | arr (elems : List Json) : Json
  | obj (fields : List (String × Json)) : Json
  deriving Repr

/-- Lookup of `j[key]` for a parsed JSON value: returns the value bound to
`key` when `j` is an object containing it, and `none` when the key is
absent or `j` is not an object — both cases where Python raises
(`KeyError` / `TypeError`). -/
def Json.getKey : Json → String → Option Json
  | Json.obj fields, key => go fields key
  | _, _ => none
where go : List (String × Json) → String → Option Json
  | [], _ => none
  | (k, v) :: rest, key => if k = key then some v else go rest key

/-- Whether a JSON value is `null`; models Python's `x is None` test on a
value decoded from JSON. -/
def Json.isNull : Json → Bool
  | Json.null => true
  | _ => false

/-- View of a JSON value as a list, used where the code iterates it
(`data.extend(page_data)`).  A non-array value is modelled as a failure;
the code never exercises the exotic Python behaviours (iterating a
string's characters or a dict's keys) on its documented inputs. -/
def Json.asArr : Json → Option (List Json)
  | Json.arr elems => some elems
  | _ => none

/-- Four lowercase hexadecimal digits of `n`, as used by `json.dumps`
for `\uXXXX` escapes. -/
def hex4 (n : Nat) : String :=
  let ds := Nat.toDigits 16 n
  String.mk (List.replicate (4 - ds.length) '0' ++ ds)

/-- Escape of one character inside a JSON string literal, following
`json.dumps` with its default `ensure_ascii=True`. -/
def jsonEscapeChar (c : Char) : String :=
  if c = '"' then "\\\""
  else if c = '\\' then "\\\\"
  else if c = '\n' then "\\n"
  else if c = '\r' then "\\r"
  else if c = '\t' then "\\t"
  else if c = '\x08' then "\\b"
  else if c = '\x0c' then "\\f"
  else if c.toNat < 0x20 ∨ 0x7e < c.toNat then
    if c.toNat ≤ 0xffff then "\\u" ++ hex4 c.toNat
    else
      let v := c.toNat - 0x10000
      "\\u" ++ hex4 (0xd800 + v / 0x400) ++ "\\u" ++ hex4 (0xdc00 + v % 0x400)
  else String.singleton c

/-- Serialization of a string as a JSON string literal (`json.dumps`). -/
def dumpString (s : String) : String :=
  "\"" ++ String.join (s.data.map jsonEscapeChar) ++ "\""

mutual

/-- `json.dumps(·, separators=(",", ":"))`: compact JSON serialization
with no spaces, as used for the `structure` query parameter
(covid.py line 118). -/
def dumps : Json → String
  | Json.null => "null"
  | Json.bool true => "true"
  | Json.bool false => "false"
  | Json.num n => toString n
  | Json.str s => dumpString s
  | Json.arr elems => "[" ++ dumpsArray elems ++ "]"
  | Json.obj fields => "\x7b" ++ dumpsObject fields ++ "\x7d"

/-- Comma-separated serialization of the elements of a JSON array. -/
def dumpsArray : List Json → String
  | [] => ""
  | [j] => dumps j
  | j :: rest => dumps j ++ "," ++ dumpsArray rest

/-- Comma-separated serialization of the fields of a JSON object, each as
`"key":value` (the `(",", ":")` separators). -/
def dumpsObject : List (String × Json) → String
  | [] => ""
  | [(k, v)] => dumpString k ++ ":" ++ dumps v
  | (k, v) :: rest => dumpString k ++ ":" ++ dumps v ++ "," ++ dumpsObject rest

end

/-- One HTTP response as seen by the loop: `status_code`, the decoded body
text (`response.text`, equal to `response.content.decode()`), and the
result of `response.json()` (`none` when the body is not valid JSON, i.e.
parsing raises). -/
structure HttpResponse where
  status_code : Nat
  text : String
  json : Option Json

/-- http.HTTPStatus.BAD_REQUEST -/
def HTTPStatus.BAD_REQUEST : Nat := 400

/-- http.HTTPStatus.NO_CONTENT -/
def HTTPStatus.NO_CONTENT : Nat := 204

/-- The query parameters of one GET request issued by the loop
(covid.py lines 116-130): the fixed `filters`, `structure` and `format`
parameters plus the per-iteration `page` number. -/
structure ApiParams where
  filters : String
  structureParam : String
  format : String
  page : Nat
  deriving DecidableEq

/-- ASCII whitespace as recognised by Python's `str.strip()` (the data
handled here is ASCII CSV text; Python additionally strips non-ASCII
Unicode whitespace, which never occurs in these bodies). -/
def pyIsSpace (c : Char) : Bool :=
  c = ' ' || c = '\t' || c = '\n' || c = '\r' || c = '\x0b' || c = '\x0c'

/-- Python's `str.strip()`: remove leading and trailing whitespace. -/
def pyStrip (s : String) : String :=
  String.mk
    (((s.data.dropWhile pyIsSpace).reverse.dropWhile pyIsSpace).reverse)

/-- Python's `str.split("\n")`: split on every newline, keeping empty
pieces (`"".split("\n") == [""]`, `"a\n".split("\n") == ["a", ""]`). -/
def splitOnNewline (s : String) : List String :=
  (go s.data).map String.mk
where go : List Char → List (List Char)
  | [] => [[]]
  | c :: rest =>
    if c = '\n' then [] :: go rest
    else
      match go rest with
      | [] => [[c]]
      | line :: more => (c :: line) :: more

/-- The per-page transformation of a CSV response body
(covid.py lines 137-148): decode the content, drop the first line (the
repeated header) when the page number is greater than 1, and strip
leading/trailing whitespace. -/
def csvPageContent (page_number : Nat) (body : String) : String :=
  let csv_content := body
  let csv_content :=
    if page_number > 1 then
      String.intercalate "\n" ((splitOnNewline csv_content).drop 1)
    else csv_content
  pyStrip csv_content

/-- Outcome of running the `while True` loop of `get_paginated_dataset`:
normal termination via one of the two `break`s (carrying both
accumulators), the `RuntimeError` raised on a status ≥ 400, an uncaught
exception from JSON parsing / key lookup, or fuel exhaustion. -/
inductive Outcome where
  | ok (dataJson : List Json) (dataCsv : List String) : Outcome
  | requestError (msg : String) : Outcome
  | uncaughtException : Outcome
  | noFuel : Outcome

/-- One iteration of the `while True` loop of `get_paginated_dataset`
(covid.py lines 131-160), after the request for `page_number` returned
`response`: either the loop terminates (`Sum.inl` with the outcome — a
`break`, the raised `RuntimeError`, or an uncaught exception), or it
continues with `page_number + 1` and the updated accumulators
(`Sum.inr`).  `data` is one Python list; it holds records in JSON mode
and page strings in CSV mode, modelled as two typed accumulators of which
the active mode uses one. -/
def loopStep (as_csv : Bool) (page_number : Nat) (response : HttpResponse)
    (dataJson : List Json) (dataCsv : List String) :
    Outcome ⊕ (List Json × List String) :=
  if HTTPStatus.BAD_REQUEST ≤ response.status_code then
    Sum.inl (Outcome.requestError ("Request failed: " ++ response.text))
  else if response.status_code = HTTPStatus.NO_CONTENT then
    Sum.inl (Outcome.ok dataJson dataCsv)
  else if as_csv then
    Sum.inr (dataJson, dataCsv ++ [csvPageContent page_number response.text])
  else
    match response.json with
    | none => Sum.inl Outcome.uncaughtException
    | some current_data =>
      match current_data.getKey "data" with
      | none => Sum.inl Outcome.uncaughtException
      | some pd =>
        match pd.asArr with
        | none => Sum.inl Outcome.uncaughtException
        | some page_data =>
          match current_data.getKey "pagination" with
          | none => Sum.inl Outcome.uncaughtException
          | some pagination =>
            match pagination.getKey "next" with
            | none => Sum.inl Outcome.uncaughtException
            | some next =>
              if next.isNull then
                Sum.inl (Outcome.ok (dataJson ++ page_data) dataCsv)
              else Sum.inr (dataJson ++ page_data, dataCsv)

/-- The `while True` loop of `get_paginated_dataset`
(covid.py lines 124-160), with the response for page `k` given by
`server k`.  Arguments after the colon: fuel, `page_number`, and the two
accumulators.  Returns the outcome together with the parameters of every
request the loop issued, in order. -/
def pageLoop (server : Nat → HttpResponse)
    (filtersParam structureParam formatParam : String) (as_csv : Bool) :
    Nat → Nat → List Json → List String → Outcome × List ApiParams
  | 0, _, _, _ => (Outcome.noFuel, [])
  | fuel + 1, page_number, dataJson, dataCsv =>
    let params : ApiParams :=
      ⟨filtersParam, structureParam, formatParam, page_number⟩
    match loopStep as_csv page_number (server page_number) dataJson dataCsv with
    | Sum.inl outcome => (outcome, [params])
    | Sum.inr (dataJson', dataCsv') =>
      let r := pageLoop server filtersParam structureParam formatParam as_csv
        fuel (page_number + 1) dataJson' dataCsv'
      (r.1, params :: r.2)

/-- The `APIResponseType` of the source: `Union[List[StructureType], str]`
— a list of records in JSON mode, a CSV string in CSV mode. -/
inductive APIResponseType where
  | records (data : List Json) : APIResponseType
  | csv (text : String) : APIResponseType
  deriving Repr

/-- How a call of `get_paginated_dataset` can fail: the `RuntimeError`
raised on a status ≥ 400, an uncaught exception propagated from JSON
parsing or key lookup, or (a model artefact) fuel exhaustion. -/
inductive FetchError where
  | requestError (msg : String) : FetchError
  | uncaught : FetchError
  | noFuel : FetchError
  deriving Repr

/-- `GovUKCoronavirusData.get_paginated_dataset` (covid.py lines 88-166):
builds the fixed query parameters, runs the page loop from page 1 with
empty accumulators, and on normal termination returns the record list
(JSON mode) or the newline-join of the page strings (CSV mode).  Also
returns the parameters of every HTTP request issued. -/
def get_paginated_dataset (server : Nat → HttpResponse) (fuel : Nat)
    (filters : List String) (structure_ : List (String × Json))
    (as_csv : Bool) :
    Except FetchError APIResponseType × List ApiParams :=
  let api_filters := String.intercalate ";" filters
  let api_structure := dumps (Json.obj structure_)
  let api_format := if as_csv = false then "json" else "csv"
  let r := pageLoop server api_filters api_structure api_format as_csv
    fuel 1 [] []
  match r.1 with
  | Outcome.ok dataJson dataCsv =>
    (if as_csv = false then Except.ok (APIResponseType.records dataJson)
     else Except.ok (APIResponseType.csv (String.intercalate "\n" dataCsv)),
     r.2)
  | Outcome.requestError msg =>
    (Except.error (FetchError.requestError msg), r.2)
  | Outcome.uncaughtException => (Except.error FetchError.uncaught, r.2)
  | Outcome.noFuel => (Except.error FetchError.noFuel, r.2)

/-- Python dict insertion: binding an existing key replaces its value in
place (the key keeps its original position), a new key is appended. -/
def pyDictInsert (d : List (String × Json)) (k : String) (v : Json) :
    List (String × Json) :=
  if d.any (fun p => p.1 = k) then
    d.map (fun p => if p.1 = k then (k, v) else p)
  else d ++ [(k, v)]

/-- The dict a Python dict literal evaluates to: entries inserted left to
right, so a repeated key keeps its first position and its last value. -/
def pyDictOfList (entries : List (String × Json)) : List (String × Json) :=
  entries.foldl (fun d p => pyDictInsert d p.1 p.2) []

/-- The entries of the `DEFAULT_QUERY_STRUCTURE` dict literal
(covid.py lines 41-77), in source order.  Note the repeated key
`cumCasesBySpecimenDateRate` (lines 49 and 51 of the literal). -/
def DEFAULT_QUERY_STRUCTURE_ENTRIES : List (String × Json) :=
  [("areaType", Json.str "areaType"),
   ("areaName", Json.str "areaName"),
   ("areaCode", Json.str "areaCode"),
   ("date", Json.str "date"),
   ("hash", Json.str "hash"),
   ("newCasesByPublishDate", Json.str "newCasesByPublishDate"),
   ("cumCasesByPublishDate", Json.str "cumCasesByPublishDate"),
   ("cumCasesBySpecimenDateRate", Json.str "cumCasesBySpecimenDateRate"),
   ("newCasesBySpecimenDate", Json.str "newCasesBySpecimenDate"),
   ("cumCasesBySpecimenDateRate", Json.str "cumCasesBySpecimenDateRate"),
   ("cumCasesBySpecimenDate", Json.str "cumCasesBySpecimenDate"),
   ("maleCases", Json.str "maleCases"),
   ("femaleCases", Json.str "femaleCases"),
   ("newPillarOneTestsByPublishDate", Json.str "newPillarOneTestsByPublishDate"),
   ("cumPillarOneTestsByPublishDate", Json.str "cumPillarOneTestsByPublishDate"),
   ("newPillarTwoTestsByPublishDate", Json.str "newPillarTwoTestsByPublishDate"),
   ("cumPillarTwoTestsByPublishDate", Json.str "cumPillarTwoTestsByPublishDate"),
   ("newPillarThreeTestsByPublishDate", Json.str "newPillarThreeTestsByPublishDate"),
   ("cumPillarThreeTestsByPublishDate", Json.str "cumPillarThreeTestsByPublishDate"),
   ("newPillarFourTestsByPublishDate", Json.str "newPillarFourTestsByPublishDate"),
   ("cumPillarFourTestsByPublishDate", Json.str "cumPillarFourTestsByPublishDate"),
   ("newAdmissions", Json.str "newAdmissions"),
   ("cumAdmissions", Json.str "cumAdmissions"),
   ("cumAdmissionsByAge", Json.str "cumAdmissionsByAge"),
   ("cumTestsByPublishDate", Json.str "cumTestsByPublishDate"),
   ("newTestsByPublishDate", Json.str "newTestsByPublishDate"),
   ("covidOccupiedMVBeds", Json.str "covidOccupiedMVBeds"),
   ("hospitalCases", Json.str "hospitalCases"),
   ("plannedCapacityByPublishDate", Json.str "plannedCapacityByPublishDate"),
   ("newDeaths28DaysByPublishDate", Json.str "newDeaths28DaysByPublishDate"),
   ("cumDeaths28DaysByPublishDate", Json.str "cumDeaths28DaysByPublishDate"),
   ("cumDeaths28DaysByPublishDateRate", Json.str "cumDeaths28DaysByPublishDateRate"),
   ("newDeaths28DaysByDeathDate", Json.str "newDeaths28DaysByDeathDate"),
   ("cumDeaths28DaysByDeathDate", Json.str "cumDeaths28DaysByDeathDate"),
   ("cumDeaths28DaysByDeathDateRate", Json.str "cumDeaths28DaysByDeathDateRate")]

/-- `GovUKCoronavirusData.DEFAULT_QUERY_STRUCTURE`: the dict the literal
evaluates to under Python dict semantics. -/
def DEFAULT_QUERY_STRUCTURE : List (String × Json) :=
  pyDictOfList DEFAULT_QUERY_STRUCTURE_ENTRIES

/-- `AreaTypeEnum` (covid.py lines 13-35). -/
inductive AreaTypeEnum where
  | OVERVIEW : AreaTypeEnum
  | NATION : AreaTypeEnum
  | REGION : AreaTypeEnum
  | NHS_REGION : AreaTypeEnum
  | UPPER_TIER_LOCAL_AUTHORITY : AreaTypeEnum
  | LOWER_TIER_LOCAL_AUTHORITY : AreaTypeEnum
  deriving DecidableEq

/-- The `value` of each `AreaTypeEnum` member (also its `str()`). -/
def AreaTypeEnum.value : AreaTypeEnum → String
  | AreaTypeEnum.OVERVIEW => "overview"
  | AreaTypeEnum.NATION => "nation"
  | AreaTypeEnum.REGION => "region"
  | AreaTypeEnum.NHS_REGION => "nhsRegion"
  | AreaTypeEnum.UPPER_TIER_LOCAL_AUTHORITY => "utla"
  | AreaTypeEnum.LOWER_TIER_LOCAL_AUTHORITY => "ltla"

/-- `GovUKCoronavirusData.get_latest_data` (covid.py lines 79-86):
defaults `filters` to `[f'areaType={AreaTypeEnum.REGION.value}']` and
`structure` to `DEFAULT_QUERY_STRUCTURE`, then delegates to
`get_paginated_dataset` (with `as_csv` left at its default `False`). -/
def get_latest_data (server : Nat → HttpResponse) (fuel : Nat)
    (filters : Option (List String))
    (structure_ : Option (List (String × Json))) :
    Except FetchError APIResponseType × List ApiParams :=
  let filters :=
    match filters with
    | none => ["areaType=" ++ AreaTypeEnum.REGION.value]
    | some f => f
  let structure_ :=
    match structure_ with
    | none => DEFAULT_QUERY_STRUCTURE
    | some s => s
  get_paginated_dataset server fuel filters structure_ false

/-- A JSON data-page response of the documented success shape: a body
that parses as an object carrying `data` (an array of records) and
`pagination` with its nullable `next` field. -/
def jsonPage (status : Nat) (body : String) (ds : List Json) (next : Json) :
    HttpResponse :=
  { status_code := status, text := body,
    json := some (Json.obj
      [("data", Json.arr ds), ("pagination", Json.obj [("next", next)])]) }

/-- A page response whose body does not supply what the JSON branch
needs: either the body is not parseable JSON at all, or it parses but the
`data` key, the `pagination` key, or the `next` field inside `pagination`
is missing — exactly the situations where `response.json()`,
`current_data['data']` or `current_data["pagination"]["next"]` raises. -/
def malformedJsonBody (j : Option Json) : Prop :=
  match j with
  | none => True
  | some current_data =>
    current_data.getKey "data" = none ∨
    current_data.getKey "pagination" = none ∨
    ∃ pagination, current_data.getKey "pagination" = some pagination ∧
      pagination.getKey "next" = none

/-! ### Basic lemmas about one loop iteration -/

theorem loopStep_requestError (c : Bool) (p : Nat) (resp : HttpResponse)
    (dJ : List Json) (dC : List String)
    (h : HTTPStatus.BAD_REQUEST ≤ resp.status_code) :
    loopStep c p resp dJ dC =
      Sum.inl (Outcome.requestError ("Request failed: " ++ resp.text)) := by
  simp [loopStep, h]

theorem loopStep_noContent (c : Bool) (p : Nat) (resp : HttpResponse)
    (dJ : List Json) (dC : List String)
    (h4 : resp.status_code < HTTPStatus.BAD_REQUEST)
    (h2 : resp.status_code = HTTPStatus.NO_CONTENT) :
    loopStep c p resp dJ dC = Sum.inl (Outcome.ok dJ dC) := by
  simp [loopStep, Nat.not_le.mpr h4, h2]
  decide

theorem loopStep_csv (p : Nat) (resp : HttpResponse)
    (dJ : List Json) (dC : List String)
    (h4 : resp.status_code < HTTPStatus.BAD_REQUEST)
    (h2 : resp.status_code ≠ HTTPStatus.NO_CONTENT) :
    loopStep true p resp dJ dC =
      Sum.inr (dJ, dC ++ [csvPageContent p resp.text]) := by
  simp [loopStep, Nat.not_le.mpr h4, h2]

theorem loopStep_json (p st : Nat) (b : String) (ds : List Json) (nx : Json)
    (dJ : List Json) (dC : List String)
    (h4 : st < HTTPStatus.BAD_REQUEST) (h2 : st ≠ HTTPStatus.NO_CONTENT) :
    loopStep false p (jsonPage st b ds nx) dJ dC =
      (if nx.isNull then Sum.inl (Outcome.ok (dJ ++ ds) dC)
       else Sum.inr (dJ ++ ds, dC)) := by
  simp [loopStep, jsonPage, Json.getKey, Json.getKey.go, Json.asArr,
    Nat.not_le.mpr h4, h2]

theorem loopStep_malformed (p : Nat) (resp : HttpResponse)
    (dJ : List Json) (dC : List String)
    (h4 : resp.status_code < HTTPStatus.BAD_REQUEST)
    (h2 : resp.status_code ≠ HTTPStatus.NO_CONTENT)
    (hm : malformedJsonBody resp.json) :
    loopStep false p resp dJ dC = Sum.inl Outcome.uncaughtException := by
  simp only [loopStep, Nat.not_le.mpr h4, if_false, h2, Bool.false_eq_true,
    if_neg, ite_false]
  cases hj : resp.json with
  | none => rfl
  | some current_data =>
    rw [hj] at hm
    simp only [malformedJsonBody] at hm
    dsimp only
    rcases hm with hd | hp | ⟨pagination, hp, hn⟩
    · rw [hd]
    · cases hdata : current_data.getKey "data" with
      | none => rfl
      | some pd =>
        dsimp only
        cases hpd : pd.asArr with
        | none => rfl
        | some page_data =>
          dsimp only
          rw [hp]
    · cases hdata : current_data.getKey "data" with
      | none => rfl
      | some pd =>
        dsimp only
        cases hpd : pd.asArr with
        | none => rfl
        | some page_data =>
          dsimp only
          rw [hp]
          dsimp only
          rw [hn]

theorem loopStep_status_of_requestError (c : Bool) (p : Nat)
    (resp : HttpResponse) (dJ : List Json) (dC : List String) (msg : String)
    (h : loopStep c p resp dJ dC = Sum.inl (Outcome.requestError msg)) :
    HTTPStatus.BAD_REQUEST ≤ resp.status_code := by
  by_contra hn
  rw [loopStep, if_neg hn] at h
  split at h
  · cases h
  · split at h
    · cases h
    · split at h <;> try cases h
      split at h <;> try cases h
      split at h <;> try cases h
      split at h <;> try cases h
      split at h <;> try cases h
      split at h <;> cases h

/-! ### Basic lemmas about the page loop -/

theorem pageLoop_zero (server : Nat → HttpResponse) (F S Fmt : String)
    (c : Bool) (p : Nat) (dJ : List Json) (dC : List String) :
    pageLoop server F S Fmt c 0 p dJ dC = (Outcome.noFuel, []) := rfl

theorem pageLoop_succ_inl (server : Nat → HttpResponse) (F S Fmt : String)
    (c : Bool) (fuel p : Nat) (dJ : List Json) (dC : List String)
    (out : Outcome) (h : loopStep c p (server p) dJ dC = Sum.inl out) :
    pageLoop server F S Fmt c (fuel + 1) p dJ dC = (out, [⟨F, S, Fmt, p⟩]) := by
  simp [pageLoop, h]

theorem pageLoop_succ_inr (server : Nat → HttpResponse) (F S Fmt : String)
    (c : Bool) (fuel p : Nat) (dJ dJ' : List Json) (dC dC' : List String)
    (h : loopStep c p (server p) dJ dC = Sum.inr (dJ', dC')) :
    pageLoop server F S Fmt c (fuel + 1) p dJ dC =
      ((pageLoop server F S Fmt c fuel (p + 1) dJ' dC').1,
       ⟨F, S, Fmt, p⟩ :: (pageLoop server F S Fmt c fuel (p + 1) dJ' dC').2) := by
  simp [pageLoop, h]

/-! ### Invariants of the page loop -/

theorem pageLoop_pages_eq_range (server : Nat → HttpResponse)
    (F S Fmt : String) (c : Bool) :
    ∀ fuel p dJ dC,
      ((pageLoop server F S Fmt c fuel p dJ dC).2).map ApiParams.page =
        List.range' p ((pageLoop server F S Fmt c fuel p dJ dC).2).length := by
  intro fuel
  induction fuel with
  | zero => intro p dJ dC; simp [pageLoop_zero]
  | succ fuel ih =>
    intro p dJ dC
    rcases hs : loopStep c p (server p) dJ dC with out | ⟨dJ', dC'⟩
    · rw [pageLoop_succ_inl server F S Fmt c fuel p dJ dC out hs]
      simp [List.range'_succ]
    · rw [pageLoop_succ_inr server F S Fmt c fuel p dJ dJ' dC dC' hs]
      simp only [List.map_cons, List.length_cons, List.range'_succ]
      rw [ih (p + 1) dJ' dC']

theorem pageLoop_params_fixed (server : Nat → HttpResponse)
    (F S Fmt : String) (c : Bool) :
    ∀ fuel p dJ dC q, q ∈ (pageLoop server F S Fmt c fuel p dJ dC).2 →
      q.filters = F ∧ q.structureParam = S ∧ q.format = Fmt := by
  intro fuel
  induction fuel with
  | zero => intro p dJ dC q hq; simp [pageLoop_zero] at hq
  | succ fuel ih =>
    intro p dJ dC q hq
    rcases hs : loopStep c p (server p) dJ dC with out | ⟨dJ', dC'⟩
    · rw [pageLoop_succ_inl server F S Fmt c fuel p dJ dC out hs] at hq
      simp only [List.mem_singleton] at hq
      subst hq
      exact ⟨rfl, rfl, rfl⟩
    · rw [pageLoop_succ_inr server F S Fmt c fuel p dJ dJ' dC dC' hs] at hq
      simp only [List.mem_cons] at hq
      rcases hq with rfl | hq
      · exact ⟨rfl, rfl, rfl⟩
      · exact ih (p + 1) dJ' dC' q hq

theorem pageLoop_json_steps (server : Nat → HttpResponse) (F S Fmt : String)
    (ds : Nat → List Json) (nx : Nat → Json) (st : Nat → Nat)
    (bd : Nat → String) :
    ∀ n fuel p dJ dC,
      n ≤ fuel →
      (∀ k, p ≤ k → k < p + n →
        server k = jsonPage (st k) (bd k) (ds k) (nx k)) →
      (∀ k, p ≤ k → k < p + n →
        st k < HTTPStatus.BAD_REQUEST ∧ st k ≠ HTTPStatus.NO_CONTENT ∧
          (nx k).isNull = false) →
      pageLoop server F S Fmt false fuel p dJ dC =
        ((pageLoop server F S Fmt false (fuel - n) (p + n)
            (dJ ++ (List.range' p n).flatMap ds) dC).1,
         (List.range' p n).map (fun k => ⟨F, S, Fmt, k⟩) ++
           (pageLoop server F S Fmt false (fuel - n) (p + n)
             (dJ ++ (List.range' p n).flatMap ds) dC).2) := by
  intro n
  induction n with
  | zero => intro fuel p dJ dC _ _ _; simp
  | succ n ih =>
    intro fuel p dJ dC hfuel hsrv hok
    obtain ⟨fuel, rfl⟩ : ∃ f, fuel = f + 1 := ⟨fuel - 1, by omega⟩
    have hp := hsrv p (Nat.le_refl p) (by omega)
    have hc := hok p (Nat.le_refl p) (by omega)
    have hstep : loopStep false p (server p) dJ dC =
        Sum.inr (dJ ++ ds p, dC) := by
      rw [hp, loopStep_json p (st p) (bd p) (ds p) (nx p) dJ dC hc.1 hc.2.1,
        hc.2.2]
      simp
    rw [pageLoop_succ_inr server F S Fmt false fuel p dJ (dJ ++ ds p) dC dC
      hstep]
    rw [ih fuel (p + 1) (dJ ++ ds p) dC (by omega)
      (fun k h1 h2 => hsrv k (by omega) (by omega))
      (fun k h1 h2 => hok k (by omega) (by omega))]
    have harith1 : p + 1 + n = p + (n + 1) := by omega
    have harith2 : fuel - n = fuel + 1 - (n + 1) := by omega
    rw [harith1, harith2]
    simp [List.range'_succ, List.append_assoc]

theorem pageLoop_csv_steps (server : Nat → HttpResponse) (F S Fmt : String) :
    ∀ n fuel p dJ dC,
      n ≤ fuel →
      (∀ k, p ≤ k → k < p + n →
        (server k).status_code < HTTPStatus.BAD_REQUEST ∧
          (server k).status_code ≠ HTTPStatus.NO_CONTENT) →
      pageLoop server F S Fmt true fuel p dJ dC =
        ((pageLoop server F S Fmt true (fuel - n) (p + n) dJ
            (dC ++ (List.range' p n).map
              (fun k => csvPageContent k (server k).text))).1,
         (List.range' p n).map (fun k => ⟨F, S, Fmt, k⟩) ++
           (pageLoop server F S Fmt true (fuel - n) (p + n) dJ
             (dC ++ (List.range' p n).map
               (fun k => csvPageContent k (server k).text))).2) := by
  intro n
  induction n with
  | zero => intro fuel p dJ dC _ _; simp
  | succ n ih =>
    intro fuel p dJ dC hfuel hok
    obtain ⟨fuel, rfl⟩ : ∃ f, fuel = f + 1 := ⟨fuel - 1, by omega⟩
    have hc := hok p (Nat.le_refl p) (by omega)
    have hstep : loopStep true p (server p) dJ dC =
        Sum.inr (dJ, dC ++ [csvPageContent p (server p).text]) :=
      loopStep_csv p (server p) dJ dC hc.1 hc.2
    rw [pageLoop_succ_inr server F S Fmt true fuel p dJ dJ dC
      (dC ++ [csvPageContent p (server p).text]) hstep]
    rw [ih fuel (p + 1) dJ (dC ++ [csvPageContent p (server p).text])
      (by omega) (fun k h1 h2 => hok k (by omega) (by omega))]
    have harith1 : p + 1 + n = p + (n + 1) := by omega
    have harith2 : fuel - n = fuel + 1 - (n + 1) := by omega
    rw [harith1, harith2]
    simp [List.range'_succ, List.append_assoc]

theorem pageLoop_requestError_iff (server : Nat → HttpResponse)
    (F S Fmt : String) (c : Bool) :
    ∀ fuel p dJ dC,
      (∃ msg, (pageLoop server F S Fmt c fuel p dJ dC).1 =
        Outcome.requestError msg) ↔
      (∃ q ∈ (pageLoop server F S Fmt c fuel p dJ dC).2,
        HTTPStatus.BAD_REQUEST ≤ (server q.page).status_code) := by
  intro fuel
  induction fuel with
  | zero =>
    intro p dJ dC
    simp only [pageLoop_zero]
    constructor
    · rintro ⟨msg, h⟩; cases h
    · rintro ⟨q, hq, _⟩; cases hq
  | succ fuel ih =>
    intro p dJ dC
    by_cases h4 : HTTPStatus.BAD_REQUEST ≤ (server p).status_code
    · rw [pageLoop_succ_inl server F S Fmt c fuel p dJ dC _
        (loopStep_requestError c p (server p) dJ dC h4)]
      constructor
      · intro _; exact ⟨⟨F, S, Fmt, p⟩, by simp, h4⟩
      · intro _; exact ⟨"Request failed: " ++ (server p).text, rfl⟩
    · rcases hs : loopStep c p (server p) dJ dC with out | ⟨dJ', dC'⟩
      · rw [pageLoop_succ_inl server F S Fmt c fuel p dJ dC out hs]
        constructor
        · rintro ⟨msg, hmsg⟩
          exact absurd
            (loopStep_status_of_requestError c p (server p) dJ dC msg
              (hmsg ▸ hs)) h4
        · rintro ⟨q, hq, hqs⟩
          simp only [List.mem_singleton] at hq
          subst hq
          exact absurd hqs h4
      · rw [pageLoop_succ_inr server F S Fmt c fuel p dJ dJ' dC dC' hs]
        simp only [List.mem_cons]
        constructor
        · intro hmsg
          obtain ⟨q, hq, hqs⟩ := (ih (p + 1) dJ' dC').mp hmsg
          exact ⟨q, Or.inr hq, hqs⟩
        · rintro ⟨q, hq, hqs⟩
          rcases hq with rfl | hq
          · exact absurd hqs h4
          · exact (ih (p + 1) dJ' dC').mpr ⟨q, hq, hqs⟩

/-! ### Claim theorems -/

/-- C1: for a JSON-mode fetch whose server serves N ≥ 1 pages chained via
`pagination.next` (pages 1..N-1 with a non-null `next`, page N with
`next = null`), `get_paginated_dataset` returns the concatenation of the
N pages' `data` sequences in page order, unmodified, and issues exactly
the N requests for pages 1..N (no trailing request after the page whose
`next` is null). -/
theorem C1_json_pagination (server : Nat → HttpResponse)
    (filters : List String) (structure_ : List (String × Json))
    (fuel N : Nat) (ds : Nat → List Json) (nx : Nat → Json)
    (bd : Nat → String)
    (hN : 1 ≤ N) (hfuel : N ≤ fuel)
    (hsrv : ∀ k, 1 ≤ k → k < N →
      server k = jsonPage 200 (bd k) (ds k) (nx k))
    (hnx : ∀ k, 1 ≤ k → k < N → (nx k).isNull = false)
    (hlast : server N = jsonPage 200 (bd N) (ds N) Json.null) :
    get_paginated_dataset server fuel filters structure_ false =
      (Except.ok (APIResponseType.records ((List.range' 1 N).flatMap ds)),
       (List.range' 1 N).map (fun k =>
         ⟨String.intercalate ";" filters, dumps (Json.obj structure_),
          "json", k⟩)) := by
  simp only [get_paginated_dataset, eq_self_iff_true, ite_true]
  rw [pageLoop_json_steps server (String.intercalate ";" filters)
    (dumps (Json.obj structure_)) "json"
    ds nx (fun _ => 200) bd (N - 1) fuel 1 [] []
    (by omega)
    (fun k h1 h2 => hsrv k h1 (by omega))
    (fun k h1 h2 => ⟨by norm_num [HTTPStatus.BAD_REQUEST],
      by norm_num [HTTPStatus.NO_CONTENT], hnx k h1 (by omega)⟩)]
  have h1N : 1 + (N - 1) = N := by omega
  rw [h1N]
  obtain ⟨f', hf'⟩ : ∃ f', fuel - (N - 1) = f' + 1 := ⟨fuel - (N - 1) - 1, by omega⟩
  rw [hf']
  have hstep : loopStep false N (server N)
      ([] ++ (List.range' 1 (N - 1)).flatMap ds) [] =
      Sum.inl (Outcome.ok
        (([] ++ (List.range' 1 (N - 1)).flatMap ds) ++ ds N) []) := by
    rw [hlast, loopStep_json N 200 (bd N) (ds N) Json.null _ _
      (by decide) (by decide)]
    simp [Json.isNull]
  rw [pageLoop_succ_inl server (String.intercalate ";" filters)
    (dumps (Json.obj structure_)) "json"
    false f' N _ _ _ hstep]
  have hrange : List.range' 1 N = List.range' 1 (N - 1) ++ [N] := by
    conv_lhs => rw [← h1N, Nat.add_comm 1 (N - 1)]
    rw [List.range'_1_concat]
    have : 1 + (N - 1) = N := by omega
    rw [this]
  rw [hrange]
  simp

/-- C1 witness: a concrete two-page JSON fetch, evaluated. -/
theorem C1_json_pagination_witness :
    get_paginated_dataset
      (fun k => if k = 1 then
          jsonPage 200 "b1" [Json.num 1, Json.num 2] (Json.str "next")
        else jsonPage 200 "b2" [Json.num 3] Json.null)
      2 ["areaType=nation"] [("date", Json.str "date")] false =
      (Except.ok (APIResponseType.records
        [Json.num 1, Json.num 2, Json.num 3]),
       [⟨"areaType=nation", "\x7b\"date\":\"date\"\x7d", "json", 1⟩,
        ⟨"areaType=nation", "\x7b\"date\":\"date\"\x7d", "json", 2⟩]) := by
  rw [C1_json_pagination _ ["areaType=nation"] [("date", Json.str "date")] 2 2
    (fun k => if k = 1 then [Json.num 1, Json.num 2] else [Json.num 3])
    (fun _ => Json.str "next")
    (fun k => if k = 1 then "b1" else "b2")
    (by omega) (by omega)
    (fun k h1 h2 => by
      have hk : k = 1 := by omega
      subst hk
      rfl)
    (fun k h1 h2 => rfl)
    rfl]
  rfl

/-- C2: a CSV-mode fetch with two data pages, each carrying the header
line `a,b` followed by one clean data row, and a terminating 204: the
result is the first page's text followed by the second page's data row
(the second header dropped, each page's body whitespace-stripped, pages
newline-joined), after exactly the 3 requests for pages 1..3; moreover
the header-dropping transformation applies to every page whose page
number is greater than 1.  The `pyStrip`/`splitOnNewline` hypotheses say
precisely that each `<row>` is a single clean CSV line (no embedded
newline, no leading/trailing whitespace). -/
theorem C2_csv_header_drop (server : Nat → HttpResponse)
    (filters : List String) (structure_ : List (String × Json))
    (fuel : Nat) (row1 row2 : String)
    (hfuel : 3 ≤ fuel)
    (hs1 : (server 1).status_code = 200)
    (ht1 : (server 1).text = "a,b\n" ++ row1)
    (hs2 : (server 2).status_code = 200)
    (ht2 : (server 2).text = "a,b\n" ++ row2)
    (hs3 : (server 3).status_code = HTTPStatus.NO_CONTENT)
    (hrow1 : pyStrip ("a,b\n" ++ row1) = "a,b\n" ++ row1)
    (hsplit2 : splitOnNewline ("a,b\n" ++ row2) = ["a,b", row2])
    (hrow2 : pyStrip row2 = row2) :
    get_paginated_dataset server fuel filters structure_ true =
      (Except.ok (APIResponseType.csv ("a,b\n" ++ row1 ++ "\n" ++ row2)),
       (List.range' 1 3).map (fun k =>
         ⟨String.intercalate ";" filters, dumps (Json.obj structure_),
          "csv", k⟩)) ∧
    (∀ (p : Nat) (body : String), 1 < p →
      csvPageContent p body =
        pyStrip (String.intercalate "\n" ((splitOnNewline body).drop 1))) := by
  constructor
  · simp only [get_paginated_dataset]
    rw [pageLoop_csv_steps server (String.intercalate ";" filters)
      (dumps (Json.obj structure_)) (if (true : Bool) = false then "json" else "csv")
      2 fuel 1 [] [] (by omega)
      (fun k h1 h2 => by
        have hk : k = 1 ∨ k = 2 := by omega
        rcases hk with rfl | rfl
        · rw [hs1]
          exact ⟨by norm_num [HTTPStatus.BAD_REQUEST],
            by norm_num [HTTPStatus.NO_CONTENT]⟩
        · rw [hs2]
          exact ⟨by norm_num [HTTPStatus.BAD_REQUEST],
            by norm_num [HTTPStatus.NO_CONTENT]⟩)]
    obtain ⟨f', hf'⟩ : ∃ f', fuel - 2 = f' + 1 := ⟨fuel - 2 - 1, by omega⟩
    rw [hf']
    have hstep : loopStep true (1 + 2) (server (1 + 2)) []
        ([] ++ (List.range' 1 2).map
          (fun k => csvPageContent k (server k).text)) =
        Sum.inl (Outcome.ok []
          ([] ++ (List.range' 1 2).map
            (fun k => csvPageContent k (server k).text))) :=
      loopStep_noContent true (1 + 2) (server (1 + 2)) _ _
        (by rw [show (1 + 2 : Nat) = 3 from rfl, hs3]
            norm_num [HTTPStatus.NO_CONTENT, HTTPStatus.BAD_REQUEST])
        (by rw [show (1 + 2 : Nat) = 3 from rfl, hs3])
    rw [pageLoop_succ_inl server (String.intercalate ";" filters)
      (dumps (Json.obj structure_)) (if (true : Bool) = false then "json" else "csv")
      true f' (1 + 2) _ _ _ hstep]
    have hr2 : List.range' 1 2 = [1, 2] := rfl
    rw [hr2]
    simp only [List.map_cons, List.map_nil, ht1, ht2]
    have hc1 : csvPageContent 1 ("a,b\n" ++ row1) = "a,b\n" ++ row1 := by
      simp [csvPageContent, hrow1]
    have hc2 : csvPageContent 2 ("a,b\n" ++ row2) = row2 := by
      simp [csvPageContent, hsplit2, hrow2]
      rw [show String.intercalate "\n" [row2] = row2 from rfl]
      exact hrow2
    rw [hc1, hc2]
    have hfin : String.intercalate "\n" ["a,b\n" ++ row1, row2] =
        "a,b\n" ++ row1 ++ "\n" ++ row2 := rfl
    simp only [List.nil_append, Bool.true_eq_false, if_false]
    rw [hfin]
    rfl
  · intro p body hp
    simp [csvPageContent, hp]

/-- C2 witness: the concrete two-page CSV fetch of the spec example,
with rows `1,2` and `3,4`, evaluated. -/
theorem C2_csv_header_drop_witness :
    get_paginated_dataset
      (fun k => if k = 1 then ⟨200, "a,b\n1,2", none⟩
        else if k = 2 then ⟨200, "a,b\n3,4", none⟩
        else ⟨204, "", none⟩)
      3 ["areaType=nation"] [] true =
      (Except.ok (APIResponseType.csv "a,b\n1,2\n3,4"),
       [⟨"areaType=nation", "\x7b\x7d", "csv", 1⟩,
        ⟨"areaType=nation", "\x7b\x7d", "csv", 2⟩,
        ⟨"areaType=nation", "\x7b\x7d", "csv", 3⟩]) := by
  rw [(C2_csv_header_drop
    (fun k => if k = 1 then ⟨200, "a,b\n1,2", none⟩
      else if k = 2 then ⟨200, "a,b\n3,4", none⟩
      else ⟨204, "", none⟩)
    ["areaType=nation"] [] 3 "1,2" "3,4"
    (by omega) rfl rfl rfl rfl rfl
    (by decide) (by decide) (by decide)).1]
  rfl

/-- Splitting the page range 1..m at its last element. -/
theorem range'_one_split (m : Nat) (hm : 1 ≤ m) :
    List.range' 1 m = List.range' 1 (m - 1) ++ [m] := by
  have h1 : m - 1 + 1 = m := by omega
  conv_lhs => rw [← h1]
  rw [List.range'_1_concat]
  have h2 : 1 + (m - 1) = m := by omega
  rw [h2]

/-- C3: in either format, when pages 1..m-1 succeed and the response for
page m has HTTP status ≥ 400, `get_paginated_dataset` fails with the
`RuntimeError` whose message carries that response's body text, issues
exactly the m requests for pages 1..m (no request after the failing
response), and returns no partial data from the earlier pages. -/
theorem C3_request_error_aborts (server : Nat → HttpResponse)
    (filters : List String) (structure_ : List (String × Json))
    (fuel m : Nat) (hm : 1 ≤ m) (hfuel : m ≤ fuel)
    (herr : HTTPStatus.BAD_REQUEST ≤ (server m).status_code) :
    (∀ (ds : Nat → List Json) (nx : Nat → Json) (bd : Nat → String),
      (∀ k, 1 ≤ k → k < m → server k = jsonPage 200 (bd k) (ds k) (nx k)) →
      (∀ k, 1 ≤ k → k < m → (nx k).isNull = false) →
      get_paginated_dataset server fuel filters structure_ false =
        (Except.error (FetchError.requestError
          ("Request failed: " ++ (server m).text)),
         (List.range' 1 m).map (fun k =>
           ⟨String.intercalate ";" filters, dumps (Json.obj structure_),
            "json", k⟩))) ∧
    ((∀ k, 1 ≤ k → k < m →
        (server k).status_code < HTTPStatus.BAD_REQUEST ∧
          (server k).status_code ≠ HTTPStatus.NO_CONTENT) →
      get_paginated_dataset server fuel filters structure_ true =
        (Except.error (FetchError.requestError
          ("Request failed: " ++ (server m).text)),
         (List.range' 1 m).map (fun k =>
           ⟨String.intercalate ";" filters, dumps (Json.obj structure_),
            "csv", k⟩))) := by
  constructor
  · intro ds nx bd hsrv hnx
    simp only [get_paginated_dataset, eq_self_iff_true, ite_true]
    rw [pageLoop_json_steps server (String.intercalate ";" filters)
      (dumps (Json.obj structure_)) "json"
      ds nx (fun _ => 200) bd (m - 1) fuel 1 [] []
      (by omega)
      (fun k h1 h2 => hsrv k h1 (by omega))
      (fun k h1 h2 => ⟨by norm_num [HTTPStatus.BAD_REQUEST],
        by norm_num [HTTPStatus.NO_CONTENT], hnx k h1 (by omega)⟩)]
    have h1m : 1 + (m - 1) = m := by omega
    rw [h1m]
    obtain ⟨f', hf'⟩ : ∃ f', fuel - (m - 1) = f' + 1 :=
      ⟨fuel - (m - 1) - 1, by omega⟩
    rw [hf']
    rw [pageLoop_succ_inl server (String.intercalate ";" filters)
      (dumps (Json.obj structure_)) "json" false f' m _ _ _
      (loopStep_requestError false m (server m) _ _ herr)]
    rw [range'_one_split m hm]
    simp
  · intro hok
    simp only [get_paginated_dataset]
    rw [pageLoop_csv_steps server (String.intercalate ";" filters)
      (dumps (Json.obj structure_))
      (if (true : Bool) = false then "json" else "csv")
      (m - 1) fuel 1 [] [] (by omega)
      (fun k h1 h2 => hok k h1 (by omega))]
    have h1m : 1 + (m - 1) = m := by omega
    rw [h1m]
    obtain ⟨f', hf'⟩ : ∃ f', fuel - (m - 1) = f' + 1 :=
      ⟨fuel - (m - 1) - 1, by omega⟩
    rw [hf']
    rw [pageLoop_succ_inl server (String.intercalate ";" filters)
      (dumps (Json.obj structure_))
      (if (true : Bool) = false then "json" else "csv") true f' m _ _ _
      (loopStep_requestError true m (server m) _ _ herr)]
    rw [range'_one_split m hm]
    simp

/-- C3 witness: a 404 on page 2 of a JSON fetch, after one good page,
evaluated. -/
theorem C3_request_error_aborts_witness :
    get_paginated_dataset
      (fun k => if k = 1 then jsonPage 200 "b1" [Json.num 9] (Json.str "n")
        else ⟨404, "not found", none⟩)
      5 ["f"] [] false =
      (Except.error (FetchError.requestError "Request failed: not found"),
       [⟨"f", "\x7b\x7d", "json", 1⟩, ⟨"f", "\x7b\x7d", "json", 2⟩]) := by
  rw [(C3_request_error_aborts
    (fun k => if k = 1 then jsonPage 200 "b1" [Json.num 9] (Json.str "n")
      else ⟨404, "not found", none⟩)
    ["f"] [] 5 2 (by omega) (by omega)
    (by norm_num [HTTPStatus.BAD_REQUEST])).1
    (fun _ => [Json.num 9]) (fun _ => Json.str "n") (fun _ => "b1")
    (fun k h1 h2 => by
      have hk : k = 1 := by omega
      subst hk
      rfl)
    (fun k h1 h2 => rfl)]
  rfl

/-- C4: a 204 response on page 1 (empty dataset) terminates the fetch
successfully after exactly one request, returning the empty record list
in JSON mode and the empty string in CSV mode. -/
theorem C4_empty_dataset (server : Nat → HttpResponse)
    (filters : List String) (structure_ : List (String × Json))
    (fuel : Nat) (hfuel : 1 ≤ fuel)
    (h204 : (server 1).status_code = HTTPStatus.NO_CONTENT) :
    get_paginated_dataset server fuel filters structure_ false =
      (Except.ok (APIResponseType.records []),
       [⟨String.intercalate ";" filters, dumps (Json.obj structure_),
         "json", 1⟩]) ∧
    get_paginated_dataset server fuel filters structure_ true =
      (Except.ok (APIResponseType.csv ""),
       [⟨String.intercalate ";" filters, dumps (Json.obj structure_),
         "csv", 1⟩]) := by
  obtain ⟨f', rfl⟩ : ∃ f', fuel = f' + 1 := ⟨fuel - 1, by omega⟩
  have hlt : (server 1).status_code < HTTPStatus.BAD_REQUEST := by
    rw [h204]
    norm_num [HTTPStatus.NO_CONTENT, HTTPStatus.BAD_REQUEST]
  constructor
  · simp only [get_paginated_dataset, eq_self_iff_true, ite_true]
    rw [pageLoop_succ_inl server (String.intercalate ";" filters)
      (dumps (Json.obj structure_)) "json" false f' 1 [] [] _
      (loopStep_noContent false 1 (server 1) [] [] hlt h204)]
  · simp only [get_paginated_dataset]
    rw [pageLoop_succ_inl server (String.intercalate ";" filters)
      (dumps (Json.obj structure_))
      (if (true : Bool) = false then "json" else "csv") true f' 1 [] [] _
      (loopStep_noContent true 1 (server 1) [] [] hlt h204)]
    rfl

/-- C4 witness: a fetch whose very first response is 204, in both
formats, evaluated. -/
theorem C4_empty_dataset_witness :
    get_paginated_dataset (fun _ => ⟨204, "", none⟩) 1 ["f"] [] false =
      (Except.ok (APIResponseType.records []),
       [⟨"f", "\x7b\x7d", "json", 1⟩]) ∧
    get_paginated_dataset (fun _ => ⟨204, "", none⟩) 1 ["f"] [] true =
      (Except.ok (APIResponseType.csv ""),
       [⟨"f", "\x7b\x7d", "csv", 1⟩]) :=
  C4_empty_dataset (fun _ => ⟨204, "", none⟩) ["f"] [] 1 (by omega) rfl

/-- The request log of `get_paginated_dataset` is the request log of its
page loop, whatever the outcome. -/
theorem get_paginated_dataset_requests (server : Nat → HttpResponse)
    (fuel : Nat) (filters : List String)
    (structure_ : List (String × Json)) (c : Bool) :
    (get_paginated_dataset server fuel filters structure_ c).2 =
      (pageLoop server (String.intercalate ";" filters)
        (dumps (Json.obj structure_)) (if c = false then "json" else "csv")
        c fuel 1 [] []).2 := by
  simp only [get_paginated_dataset]
  rcases hr : pageLoop server (String.intercalate ";" filters)
      (dumps (Json.obj structure_)) (if c = false then "json" else "csv")
      c fuel 1 [] [] with ⟨out, log⟩
  cases out <;> rfl

/-- Every request of a JSON-mode fetch carries `format=json`. -/
theorem get_paginated_dataset_format_json (server : Nat → HttpResponse)
    (fuel : Nat) (filters : List String)
    (structure_ : List (String × Json)) :
    ∀ q ∈ (get_paginated_dataset server fuel filters structure_ false).2,
      q.format = "json" := by
  intro q hq
  rw [get_paginated_dataset_requests] at hq
  exact (pageLoop_params_fixed server _ _ _ false fuel 1 [] [] q hq).2.2

/-- C5: every HTTP request issued by one fetch carries the `filters`
parameter equal to the filter strings joined verbatim with `;` in the
given order (no re-sorting) and the `structure` parameter equal to the
structure serialized as compact JSON with separators `,` and `:`; in
particular the two parameters are identical across all pages of the
fetch. -/
theorem C5_fixed_params (server : Nat → HttpResponse)
    (filters : List String) (structure_ : List (String × Json))
    (fuel : Nat) (as_csv : Bool) (_hne : filters ≠ []) :
    (∀ q ∈ (get_paginated_dataset server fuel filters structure_ as_csv).2,
      q.filters = String.intercalate ";" filters ∧
      q.structureParam = dumps (Json.obj structure_)) ∧
    (∀ q ∈ (get_paginated_dataset server fuel filters structure_ as_csv).2,
     ∀ q' ∈ (get_paginated_dataset server fuel filters structure_ as_csv).2,
      q.filters = q'.filters ∧ q.structureParam = q'.structureParam) := by
  constructor
  · intro q hq
    rw [get_paginated_dataset_requests] at hq
    have h := pageLoop_params_fixed server _ _ _ as_csv fuel 1 [] [] q hq
    exact ⟨h.1, h.2.1⟩
  · intro q hq q' hq'
    rw [get_paginated_dataset_requests] at hq hq'
    have h := pageLoop_params_fixed server _ _ _ as_csv fuel 1 [] [] q hq
    have h' := pageLoop_params_fixed server _ _ _ as_csv fuel 1 [] [] q' hq'
    exact ⟨h.1.trans h'.1.symm, (h.2.1).trans (h'.2.1).symm⟩

/-- C5 witness: the two fixed parameters of a concrete fetch, evaluated
on its one request. -/
theorem C5_fixed_params_witness :
    (⟨"areaType=nation;areaCode=E92000001", "\x7b\"k\":\"v\"\x7d",
       "json", 1⟩ : ApiParams).filters =
      "areaType=nation;areaCode=E92000001" ∧
    (⟨"areaType=nation;areaCode=E92000001", "\x7b\"k\":\"v\"\x7d",
       "json", 1⟩ : ApiParams).structureParam = "\x7b\"k\":\"v\"\x7d" :=
  (C5_fixed_params (fun _ => ⟨204, "", none⟩)
    ["areaType=nation", "areaCode=E92000001"] [("k", Json.str "v")]
    1 false (by decide)).1
    ⟨"areaType=nation;areaCode=E92000001", "\x7b\"k\":\"v\"\x7d",
     "json", 1⟩
    (by decide)

/-- C6: `get_latest_data` with `filters` omitted fetches with the single
filter `areaType=region`; with `structure` omitted it fetches with
`DEFAULT_QUERY_STRUCTURE` passed through unmodified; in every case the
delegated fetch is in JSON format (`as_csv` left at `False`), so each
issued request carries `format=json`. -/
theorem C6_get_latest_data_defaults (server : Nat → HttpResponse)
    (fuel : Nat) :
    get_latest_data server fuel none none =
      get_paginated_dataset server fuel ["areaType=region"]
        DEFAULT_QUERY_STRUCTURE false ∧
    (∀ f, get_latest_data server fuel (some f) none =
      get_paginated_dataset server fuel f DEFAULT_QUERY_STRUCTURE false) ∧
    (∀ s, get_latest_data server fuel none (some s) =
      get_paginated_dataset server fuel ["areaType=region"] s false) ∧
    (∀ fo so q, q ∈ (get_latest_data server fuel fo so).2 →
      q.format = "json") := by
  refine ⟨rfl, fun f => rfl, fun s => rfl, ?_⟩
  intro fo so q hq
  cases fo <;> cases so <;>
    exact get_paginated_dataset_format_json server fuel _ _ q hq

/-- C6 witness: the defaulted call on a concrete server; its single
request's parameters, evaluated. -/
theorem C6_get_latest_data_defaults_witness :
    get_latest_data (fun _ => ⟨204, "", none⟩) 1 none none =
      get_paginated_dataset (fun _ => ⟨204, "", none⟩) 1
        ["areaType=region"] DEFAULT_QUERY_STRUCTURE false ∧
    (⟨"areaType=region", dumps (Json.obj DEFAULT_QUERY_STRUCTURE),
       "json", 1⟩ : ApiParams).format = "json" :=
  ⟨(C6_get_latest_data_defaults (fun _ => ⟨204, "", none⟩) 1).1,
   (C6_get_latest_data_defaults (fun _ => ⟨204, "", none⟩) 1).2.2.2
     none none
     ⟨"areaType=region", dumps (Json.obj DEFAULT_QUERY_STRUCTURE),
      "json", 1⟩
     (List.mem_singleton.mpr rfl)⟩

/-- C7: the `DEFAULT_QUERY_STRUCTURE` literal repeats the key
`cumCasesBySpecimenDateRate` (it appears twice among the literal's
entries); the dict it evaluates to contains that key exactly once, bound
to the later entry's value, with every other key of the literal still
present (and no error raised — dict construction is total); in general a
repeated key in a dict literal silently takes the last value. -/
theorem C7_duplicate_key_last_wins :
    (DEFAULT_QUERY_STRUCTURE_ENTRIES.map Prod.fst).count
      "cumCasesBySpecimenDateRate" = 2 ∧
    (DEFAULT_QUERY_STRUCTURE.map Prod.fst).count
      "cumCasesBySpecimenDateRate" = 1 ∧
    Json.getKey (Json.obj DEFAULT_QUERY_STRUCTURE)
      "cumCasesBySpecimenDateRate" =
      some (Json.str "cumCasesBySpecimenDateRate") ∧
    (∀ k ∈ DEFAULT_QUERY_STRUCTURE_ENTRIES.map Prod.fst,
      k ∈ DEFAULT_QUERY_STRUCTURE.map Prod.fst) ∧
    ∀ (k : String) (v1 v2 : Json),
      pyDictOfList [(k, v1), (k, v2)] = [(k, v2)] := by
  refine ⟨by rfl, by rfl, by rfl, by decide, ?_⟩
  intro k v1 v2
  simp [pyDictOfList, pyDictInsert]

/-- C7 witness: membership of a concrete non-repeated key, and last-wins
on a concrete two-entry literal, evaluated. -/
theorem C7_duplicate_key_last_wins_witness :
    "areaType" ∈ DEFAULT_QUERY_STRUCTURE.map Prod.fst ∧
    pyDictOfList [("a", Json.str "x"), ("a", Json.str "y")] =
      [("a", Json.str "y")] :=
  ⟨C7_duplicate_key_last_wins.2.2.2.1 "areaType" (by decide),
   C7_duplicate_key_last_wins.2.2.2.2 "a" (Json.str "x") (Json.str "y")⟩

/-- C8: in a JSON-mode fetch, when pages 1..m-1 succeed and page m's
response (with a non-error, non-204 status) has a body that is not
parseable JSON, or parses but lacks the `data` key or the `pagination`
key with its `next` field, the underlying parse/lookup failure propagates
uncaught and untranslated: the fetch ends with the uncaught-exception
outcome — not a `RequestError` — and returns no result. -/
theorem C8_malformed_response_propagates (server : Nat → HttpResponse)
    (filters : List String) (structure_ : List (String × Json))
    (fuel m : Nat) (ds : Nat → List Json) (nx : Nat → Json)
    (bd : Nat → String)
    (hm : 1 ≤ m) (hfuel : m ≤ fuel)
    (hsrv : ∀ k, 1 ≤ k → k < m →
      server k = jsonPage 200 (bd k) (ds k) (nx k))
    (hnx : ∀ k, 1 ≤ k → k < m → (nx k).isNull = false)
    (hstatus : (server m).status_code < HTTPStatus.BAD_REQUEST)
    (h204 : (server m).status_code ≠ HTTPStatus.NO_CONTENT)
    (hmal : malformedJsonBody (server m).json) :
    get_paginated_dataset server fuel filters structure_ false =
      (Except.error FetchError.uncaught,
       (List.range' 1 m).map (fun k =>
         ⟨String.intercalate ";" filters, dumps (Json.obj structure_),
          "json", k⟩)) := by
  simp only [get_paginated_dataset, eq_self_iff_true, ite_true]
  rw [pageLoop_json_steps server (String.intercalate ";" filters)
    (dumps (Json.obj structure_)) "json"
    ds nx (fun _ => 200) bd (m - 1) fuel 1 [] []
    (by omega)
    (fun k h1 h2 => hsrv k h1 (by omega))
    (fun k h1 h2 => ⟨by norm_num [HTTPStatus.BAD_REQUEST],
      by norm_num [HTTPStatus.NO_CONTENT], hnx k h1 (by omega)⟩)]
  have h1m : 1 + (m - 1) = m := by omega
  rw [h1m]
  obtain ⟨f', hf'⟩ : ∃ f', fuel - (m - 1) = f' + 1 :=
    ⟨fuel - (m - 1) - 1, by omega⟩
  rw [hf']
  rw [pageLoop_succ_inl server (String.intercalate ";" filters)
    (dumps (Json.obj structure_)) "json" false f' m _ _ _
    (loopStep_malformed m (server m) _ _ hstatus h204 hmal)]
  rw [range'_one_split m hm]
  simp

/-- C8 witness: a body that is not JSON at all on page 1, evaluated. -/
theorem C8_malformed_response_propagates_witness :
    get_paginated_dataset (fun _ => ⟨200, "not json", none⟩) 1
      ["f"] [] false =
      (Except.error FetchError.uncaught,
       [⟨"f", "\x7b\x7d", "json", 1⟩]) := by
  rw [C8_malformed_response_propagates (fun _ => ⟨200, "not json", none⟩)
    ["f"] [] 1 1 (fun _ => []) (fun _ => Json.null) (fun _ => "")
    (by omega) (by omega)
    (fun k h1 h2 => absurd h2 (by omega))
    (fun k h1 h2 => absurd h2 (by omega))
    (by norm_num [HTTPStatus.BAD_REQUEST])
    (by norm_num [HTTPStatus.NO_CONTENT])
    (by simp [malformedJsonBody])]
  rfl

/-- C9: the requests of one fetch carry the page parameters 1, 2, 3, …
in order: the k-th request issued has `page = k`, so page numbers start
at 1 and are strictly consecutive, none skipped, repeated or
decreased. -/
theorem C9_consecutive_pages (server : Nat → HttpResponse)
    (filters : List String) (structure_ : List (String × Json))
    (fuel : Nat) (as_csv : Bool) :
    ((get_paginated_dataset server fuel filters structure_ as_csv).2).map
        ApiParams.page =
      List.range' 1
        ((get_paginated_dataset server fuel filters structure_
          as_csv).2).length := by
  rw [get_paginated_dataset_requests]
  exact pageLoop_pages_eq_range server _ _ _ as_csv fuel 1 [] []

/-- The fetch reports a `RequestError` exactly when its page loop does. -/
theorem get_paginated_dataset_error_iff (server : Nat → HttpResponse)
    (fuel : Nat) (filters : List String)
    (structure_ : List (String × Json)) (c : Bool) (msg : String) :
    (get_paginated_dataset server fuel filters structure_ c).1 =
        Except.error (FetchError.requestError msg) ↔
      (pageLoop server (String.intercalate ";" filters)
        (dumps (Json.obj structure_)) (if c = false then "json" else "csv")
        c fuel 1 [] []).1 = Outcome.requestError msg := by
  simp only [get_paginated_dataset]
  rcases hr : pageLoop server (String.intercalate ";" filters)
      (dumps (Json.obj structure_)) (if c = false then "json" else "csv")
      c fuel 1 [] [] with ⟨out, log⟩
  cases out <;> cases c <;> simp

/-- C10: a fetch raises the `RequestError` if and only if some issued
request got a response with status ≥ 400; and every response with status
below 400 and different from 204 — including informational and redirect
statuses, not only 200 — is treated as a successful data page whose body
is consumed as data (shown for a 1xx/3xx/2xx status `st` in JSON mode
via the parsed body and in CSV mode via the stripped text). -/
theorem C10_error_iff_status (server : Nat → HttpResponse)
    (filters : List String) (structure_ : List (String × Json))
    (fuel : Nat) (as_csv : Bool) :
    ((∃ msg,
        (get_paginated_dataset server fuel filters structure_ as_csv).1 =
          Except.error (FetchError.requestError msg)) ↔
      ∃ q ∈ (get_paginated_dataset server fuel filters structure_
          as_csv).2,
        HTTPStatus.BAD_REQUEST ≤ (server q.page).status_code) ∧
    (∀ (st : Nat) (b : String) (ds : List Json),
      st < HTTPStatus.BAD_REQUEST → st ≠ HTTPStatus.NO_CONTENT →
      server 1 = jsonPage st b ds Json.null → 1 ≤ fuel →
      (get_paginated_dataset server fuel filters structure_ false).1 =
        Except.ok (APIResponseType.records ds)) ∧
    (∀ st : Nat,
      st < HTTPStatus.BAD_REQUEST → st ≠ HTTPStatus.NO_CONTENT →
      (server 1).status_code = st →
      (server 2).status_code = HTTPStatus.NO_CONTENT → 2 ≤ fuel →
      (get_paginated_dataset server fuel filters structure_ true).1 =
        Except.ok (APIResponseType.csv (pyStrip (server 1).text))) := by
  refine ⟨⟨?_, ?_⟩, ?_, ?_⟩
  · rintro ⟨msg, h⟩
    rw [get_paginated_dataset_error_iff] at h
    rw [get_paginated_dataset_requests]
    exact (pageLoop_requestError_iff server _ _ _ as_csv fuel 1 [] []).mp
      ⟨msg, h⟩
  · intro h
    rw [get_paginated_dataset_requests] at h
    obtain ⟨msg, hm⟩ :=
      (pageLoop_requestError_iff server _ _ _ as_csv fuel 1 [] []).mpr h
    exact ⟨msg,
      (get_paginated_dataset_error_iff server fuel filters structure_
        as_csv msg).mpr hm⟩
  · intro st b ds hlt h204 hsrv1 hfuel
    obtain ⟨f', rfl⟩ : ∃ f', fuel = f' + 1 := ⟨fuel - 1, by omega⟩
    simp only [get_paginated_dataset, eq_self_iff_true, ite_true]
    have hstep : loopStep false 1 (server 1) [] [] =
        Sum.inl (Outcome.ok ([] ++ ds) []) := by
      rw [hsrv1, loopStep_json 1 st b ds Json.null [] [] hlt h204]
      simp [Json.isNull]
    rw [pageLoop_succ_inl server (String.intercalate ";" filters)
      (dumps (Json.obj structure_)) "json" false f' 1 [] [] _ hstep]
    simp
  · intro st hlt h204 hs1 hs2 hfuel
    simp only [get_paginated_dataset]
    rw [pageLoop_csv_steps server (String.intercalate ";" filters)
      (dumps (Json.obj structure_))
      (if (true : Bool) = false then "json" else "csv")
      1 fuel 1 [] [] (by omega)
      (fun k h1 h2 => by
        have hk : k = 1 := by omega
        subst hk
        rw [hs1]
        exact ⟨hlt, h204⟩)]
    obtain ⟨f', hf'⟩ : ∃ f', fuel - 1 = f' + 1 := ⟨fuel - 2, by omega⟩
    rw [hf']
    have hstep : loopStep true (1 + 1) (server (1 + 1)) []
        ([] ++ (List.range' 1 1).map
          (fun k => csvPageContent k (server k).text)) =
        Sum.inl (Outcome.ok []
          ([] ++ (List.range' 1 1).map
            (fun k => csvPageContent k (server k).text))) :=
      loopStep_noContent true (1 + 1) (server (1 + 1)) _ _
        (by rw [show (1 + 1 : Nat) = 2 from rfl, hs2]
            norm_num [HTTPStatus.NO_CONTENT, HTTPStatus.BAD_REQUEST])
        (by rw [show (1 + 1 : Nat) = 2 from rfl, hs2])
    rw [pageLoop_succ_inl server (String.intercalate ";" filters)
      (dumps (Json.obj structure_))
      (if (true : Bool) = false then "json" else "csv") true f' (1 + 1)
      _ _ _ hstep]
    have hr1 : List.range' 1 1 = [1] := rfl
    rw [hr1]
    simp only [List.map_cons, List.map_nil, List.nil_append]
    have hc : csvPageContent 1 (server 1).text = pyStrip (server 1).text := by
      simp [csvPageContent]
    rw [hc]
    rfl

/-- C10 witness: a 301 (redirect) response carrying a JSON body is
consumed as an ordinary data page, evaluated. -/
theorem C10_error_iff_status_witness :
    (get_paginated_dataset
      (fun _ => jsonPage 301 "moved" [Json.num 5] Json.null)
      1 ["f"] [] false).1 =
      Except.ok (APIResponseType.records [Json.num 5]) :=
  (C10_error_iff_status
    (fun _ => jsonPage 301 "moved" [Json.num 5] Json.null)
    ["f"] [] 1 false).2.1 301 "moved" [Json.num 5]
    (by norm_num [HTTPStatus.BAD_REQUEST])
    (by norm_num [HTTPStatus.NO_CONTENT])
    rfl (by omega)
